import Mathlib

/-!
Shallow embedding of the simbabuild target-graph engine
(src/simbabuild/api.py, apiutility.py, apimixins.py, builder_ninja.py).

Conventions used throughout:
* Python recoverable errors (utility.error) accumulate in an explicit
  `errors : List String` component and execution continues.
* Python fatal errors (utility.fatal / target.fatal, i.e. sys.exit(1)) and
  raised exceptions are modelled by `Except.error`.
* Python `None` is `PyVal.none` / `Option.none`; Python truthiness is made
  explicit (`pyTruthy`, `pyTruthyStr`).
* `sq` is the ASCII apostrophe character (0x27) used by the source's
  error-message format strings.
-/

namespace Simba

/-- The ASCII apostrophe (0x27), as it appears in the source error messages. -/
def sq : String := String.singleton (Char.ofNat 39)

/-- Python attribute values as far as the engine's data model needs them. -/
inductive PyVal where
  | none
  | str (s : String)
  | bool (b : Bool)
  | int (n : Int)
  deriving DecidableEq

/-- Python truthiness of a value (`if value:`). -/
def pyTruthy : PyVal → Bool
  | PyVal.none => false
  | PyVal.str s => s != ""
  | PyVal.bool b => b
  | PyVal.int n => n != 0

/-- Python truthiness of an optional string field (`if self.path:`):
`None` and the empty string are falsy. -/
def pyTruthyStr : Option String → Bool
  | Option.none => false
  | some s => s != ""

/-- Name of the Python runtime type of a value (`type(field)`). -/
def pyTypeOf : PyVal → String
  | PyVal.none => "NoneType"
  | PyVal.str _ => "str"
  | PyVal.bool _ => "bool"
  | PyVal.int _ => "int"

/-- `isinstance(v, t)`: Python `bool` is a subclass of `int`. -/
def isinstancePy (v : PyVal) (t : String) : Bool :=
  pyTypeOf v == t || (t == "int" && pyTypeOf v == "bool")

/-- Lookup in an instance `__dict__`, modelled as an insertion-ordered
association list (Python dicts preserve insertion order). -/
def lookupField : List (String × PyVal) → String → Option PyVal
  | [], _ => Option.none
  | (k, v) :: rest, key => if k = key then some v else lookupField rest key

/-- `setattr`: updating an existing key keeps its position, a new key is
appended (Python dict update semantics). -/
def setField : List (String × PyVal) → String → PyVal → List (String × PyVal)
  | [], key, val => [(key, val)]
  | (k, v) :: rest, key, val =>
      if k = key then (k, val) :: rest else (k, v) :: setField rest key val

/-- `delattr` (used when popping `override` / `default` in `_.update`). -/
def removeField : List (String × PyVal) → String → List (String × PyVal)
  | [], _ => []
  | (k, v) :: rest, key =>
      if k = key then removeField rest key else (k, v) :: removeField rest key

/-! ### Path helpers (os.path, posix flavour) -/

/-- Python `str.rfind` over a character list: index of the last occurrence,
`-1` when absent (kept as `Int` to mirror the CPython index comparisons). -/
def pyRFind (l : List Char) (c : Char) : Int :=
  let rec go : List Char → Int → Int → Int
    | [], _, best => best
    | x :: rest, i, best => go rest (i + 1) (if x = c then i else best)
  go l 0 (-1)

/-- `os.path.splitext` on a character list (CPython genericpath._splitext with
`sep = '/'`, `extsep = '.'`): split at the last dot after the last slash,
unless every character of the basename up to that dot is itself a dot
(leading dots never start an extension). -/
def splitextChars (p : List Char) : List Char × List Char :=
  let sepIndex : Int := pyRFind p '/'
  let dotIndex : Int := pyRFind p '.'
  if sepIndex < dotIndex then
    let fi : Nat := (sepIndex + 1).toNat
    let di : Nat := dotIndex.toNat
    if ((p.drop fi).take (di - fi)).any (fun c => c != '.') then
      (p.take di, p.drop di)
    else
      (p, [])
  else
    (p, [])

/-- `os.path.splitext` on strings. -/
def splitext (p : String) : String × String :=
  let r := splitextChars p.data
  (String.mk r.1, String.mk r.2)

/-- Two-argument `os.path.join` (posixpath): if `b` starts with the
separator the result is `b`; if `a` is empty or ends with the separator
they are concatenated; otherwise a separator is inserted.  Since the
pattern is the single separator character, the prefix/suffix checks are
performed on the character list. -/
def pathJoin (a b : String) : String :=
  if b.data.head? = some '/' then b
  else if a = "" || a.data.getLast? = some '/' then a ++ b
  else a ++ "/" ++ b

/-! ### Generator / filetype / dependency data model (api.py) -/

/-- `generator.kind_to_ext` (api.py lines 676-687). -/
def kind_to_ext (kind : String) : String :=
  if kind = "executable" then ""
  else if kind = "static_library" then ".a"
  else if kind = "shared_library" then ".so"
  else if kind = "object" then ".o"
  else ".out"

/-- One piece of a generator's output-naming template.  The Python source
stores the template as a format string (default `{filename}{kindext}`) and
formats it with the locals of `generator.get_output`; here the parsed
template is a list of literal and placeholder pieces. -/
inductive OutItem where
  | lit (s : String)
  | filename
  | ext
  | kindext
  | input
  | kind
  deriving DecidableEq

/-- A `generator` target after validation: a raw command template string, and
the parsed output-naming template (field `output`). -/
structure Generator where
  name : String
  command : String
  output : List OutItem
  deriving DecidableEq

/-- The validator default for the `output` field: `{filename}{kindext}`. -/
def defaultOutputTemplate : List OutItem := [OutItem.filename, OutItem.kindext]

/-- Formatting of the output template with the locals of
`generator.get_output` (api.py lines 737-741): `filename, ext = splitext
input`, `kindext = kind_to_ext kind`. -/
def formatOutput (tmpl : List OutItem) (inp : String) (kind : String) : String :=
  let fe := splitext inp
  let kindext := kind_to_ext kind
  String.join (tmpl.map fun it =>
    match it with
    | OutItem.lit s => s
    | OutItem.filename => fe.1
    | OutItem.ext => fe.2
    | OutItem.kindext => kindext
    | OutItem.input => inp
    | OutItem.kind => kind)

/-- `generator.get_output` for a single string input: the first (and only)
yielded value (api.py lines 737-741). -/
def Generator.get_output (g : Generator) (inp : String) (kind : String) : String :=
  formatOutput g.output inp kind

/-- A `filetype` target after validation. -/
structure Filetype where
  name : String
  extensions : List String
  generator : Generator
  deriving DecidableEq

/-- The data of one dependency node.  Hidden attributes are dropped; the
child nodes yielded by `get_dependencies` are represented by their node data
(one level deep), which is all the claims inspect. -/
structure DepNode where
  name : String
  kind : String
  provider : String
  nofiletype : Bool
  sources : List String
  generator : Option Generator
  environment : String
  deriving DecidableEq

/-- A `dependency` target after validation.  `sources` is the list of
concrete file paths its `get_sources` iterator yields (source expansion via
the filesystem glob is outside the embedding); `dependencies` are the
explicit dependency targets, already-expanded node data. -/
structure Dependency where
  name : String
  kind : String
  provider : String
  nofiletype : Bool
  sources : List String
  dependencies : List DepNode
  generator : Option Generator
  environment : String

/-- `filetype.try_find` (api.py lines 765-771): split off the extension and
look it up in the `_.filetypes` table (extension → filetype). -/
def tryFind (fts : List (String × Filetype)) (path : String) : Option Filetype :=
  fts.lookup (splitext path).2

/-- The synthesized pass-through dependency of api.py lines 590-597:
`dependency(name=source, sources=source, environment=self.environment,
provider='local', kind='source')`.  `nofiletype` and `generator` are not
passed and take their validator defaults (`false`, `None`). -/
def sourceDep (d : Dependency) (src : String) : DepNode :=
  { name := src, kind := "source", provider := "local", nofiletype := false,
    sources := [src], generator := Option.none, environment := d.environment }

/-- The synthesized object dependency of api.py lines 598-609:
`dependency(name=out, sources=source, environment=self.environment,
generator=ft.generator, nofiletype=True, kind='object')` where `out` is the
first value of `ft.generator.get_output(source, kind='object')`.  `provider`
is not passed and takes its validator default `'internal'`. -/
def objectDep (d : Dependency) (ft : Filetype) (src : String) : DepNode :=
  { name := ft.generator.get_output src "object", kind := "object",
    provider := "internal", nofiletype := true, sources := [src],
    generator := some ft.generator, environment := d.environment }

/-- The per-source loop of `dependency.get_dependencies` (api.py lines
584-609).  A fatal (`self.fatal`, i.e. process exit) is `Except.error`. -/
def synthDeps (fts : List (String × Filetype)) (d : Dependency) :
    List String → Except String (List DepNode)
  | [] => Except.ok []
  | src :: rest =>
      match tryFind fts src with
      | Option.none =>
          if d.kind = "executable" then
            Except.error (d.name ++ ": no filetype for " ++ sq ++ src ++ sq)
          else
            match synthDeps fts d rest with
            | Except.ok l => Except.ok (sourceDep d src :: l)
            | Except.error e => Except.error e
      | some ft =>
          let child := if d.nofiletype then sourceDep d src else objectDep d ft src
          match synthDeps fts d rest with
          | Except.ok l => Except.ok (child :: l)
          | Except.error e => Except.error e

/-- `dependency.get_dependencies` (api.py lines 577-609): a `local` provider
yields nothing; otherwise the explicit dependencies are yielded first
(expansion of an already-expanded node is the identity), then one
synthesized node per source. -/
def get_dependencies (fts : List (String × Filetype)) (d : Dependency) :
    Except String (List DepNode) :=
  if d.provider = "local" then Except.ok []
  else
    match synthDeps fts d d.sources with
    | Except.ok l => Except.ok (d.dependencies ++ l)
    | Except.error e => Except.error e

/-- `dependency.get_output` (api.py lines 546-567).  `ctxfolder` is the
directory of the declaring recipe file.  The result is the Python return
value (`Option.none` models returning `None`); `Except.error` models the
fatal raised by `filetype.find` when no filetype matches. -/
def get_output (fts : List (String × Filetype)) (ctxfolder : String)
    (d : Dependency) : Except String (Option String) :=
  match d.sources.head? with
  | Option.none =>
      if d.provider = "local" then Except.ok Option.none
      else Except.ok (some (pathJoin ctxfolder (d.name ++ kind_to_ext d.kind)))
  | some source =>
      if d.provider = "local" then Except.ok (some source)
      else if source == "" || pyTruthyStr (d.sources.drop 1).head? ||
              d.kind == "executable" || d.kind == "static_library" ||
              d.kind == "shared_library" then
        Except.ok (some (pathJoin ctxfolder (d.name ++ kind_to_ext d.kind)))
      else
        match d.generator with
        | some g => Except.ok (some (g.get_output source d.kind))
        | Option.none =>
            match tryFind fts source with
            | some ft => Except.ok (some (ft.generator.get_output source d.kind))
            | Option.none =>
                Except.error ("filetype matching file " ++ sq ++ source ++ sq
                  ++ " not found")

/-! ### Registry (api.py `_`: update / ensure_can_create) -/

/-- A registered target node: its current class tag, its instance
field dictionary (non-underscore data attributes, insertion ordered), and
its `_expanded` flag.  `hasattr` on data fields is modelled as lookup in
this dictionary. -/
structure Node where
  cls : String
  fields : List (String × PyVal)
  expanded : Bool
  deriving DecidableEq

/-- Engine state touched by `_.update`: the registry (qualified name →
node, insertion ordered), the process-wide accumulated error log
(utility.error), and the engine phase marker. -/
structure RegState where
  registry : List (String × Node)
  errors : List String
  phase : String
  deriving DecidableEq

/-- Assoc-list update for the registry, keeping the entry's position. -/
def setReg : List (String × Node) → String → Node → List (String × Node)
  | [], key, n => [(key, n)]
  | (k, v) :: rest, key, n =>
      if k = key then (k, n) :: rest else (k, v) :: setReg rest key n

/-- `_.ensure_can_create` (api.py lines 133-136): `obj.fatal` (process
exit) exactly when the phase equals `'prepare'`. -/
def ensure_can_create (phase : String) : Except String Unit :=
  if phase = "prepare" then
    Except.error ("can" ++ sq ++ "t create object while on " ++ sq ++ phase
      ++ sq ++ " phase")
  else Except.ok ()

/-- The engine phase progression `preload → load → prepare → postload`
driven by `_.load` (api.py lines 113-127). -/
def phaseIndex : String → Nat
  | "preload" => 0
  | "load" => 1
  | "prepare" => 2
  | "postload" => 3
  | _ => 0

/-- One iteration of the merge loop of `_.update` (api.py lines 175-185)
for an incoming `(key, value)` pair: `name` is skipped; if the existing
node already has the field with a different value and the merge is not
marked override, the recoverable error `"already exists (use
override=True)"` is appended (`robj.error`, message prefixed by the
target name and field); then `setattr(robj, key, value)` runs
unconditionally.  (The `key.startswith(underscore)` branch at lines
179-180 is unreachable: `bunch.__iter__` already filters those keys, so
the loop never sees them; the embedding iterates the filtered fields.) -/
def mergeField (tname : String) (override : Bool)
    (st : Node × List String) (kv : String × PyVal) : Node × List String :=
  let robj := st.1
  let errs := st.2
  if kv.1 = "name" then (robj, errs)
  else
    let errs :=
      match lookupField robj.fields kv.1 with
      | some old =>
          if old ≠ kv.2 ∧ override = false then
            errs ++ [tname ++ "." ++ kv.1
              ++ ": already exists (use override=True)"]
          else errs
      | Option.none => errs
    ({ robj with fields := setField robj.fields kv.1 kv.2 }, errs)

/-- `_.update` (api.py lines 149-195).  `fields0` is the incoming
declaration's instance dictionary.  `override` and `default` are popped
first (`override` keeps its truthiness; `default` only controls the
class-default marking, which no claim depends on and is not modelled).
On an existing entry: fatal if the node is already expanded, else the
class tag is updated and each field is merged by `mergeField`.  On a new
entry: the node is inserted, then `ensure_can_create` may make the
creation fatal (on fatal the process dies, so the discarded insertion is
unobservable). -/
def update (st : RegState) (cls tname : String)
    (fields0 : List (String × PyVal)) : Except String (RegState × Node) :=
  let override := (lookupField fields0 "override").elim false pyTruthy
  let fields := removeField (removeField fields0 "override") "default"
  match st.registry.lookup tname with
  | some robj =>
      if robj.expanded then
        Except.error (tname ++ ": can" ++ sq ++ "t update an expanded object")
      else
        let start : Node × List String := ({ robj with cls := cls }, st.errors)
        let r := fields.foldl (mergeField tname override) start
        Except.ok
          ({ st with registry := setReg st.registry tname r.1,
                     errors := r.2 }, r.1)
  | Option.none =>
      let node : Node := { cls := cls, fields := fields, expanded := false }
      let st1 : RegState :=
        { st with registry := st.registry ++ [(tname, node)] }
      match ensure_can_create st1.phase with
      | Except.error e => Except.error (tname ++ ": " ++ e)
      | Except.ok _ => Except.ok (st1, node)

/-! ### Schema validator (apiutility.py `TargetValidator.field`) -/

/-- The validator's view of one node during a `field` call: the node's
field dictionary, the accumulated error log, and the list of declared
field names (used by the exit-scope unrecognized-field check). -/
structure VState where
  fields : List (String × PyVal)
  errors : List String
  declared : List String
  deriving DecidableEq

/-- `TargetValidator.field` (apiutility.py lines 62-101).  `objName` is
`str(self.obj)`.  A field that is absent (`not hasattr`) or explicitly
`None` (`getattr(...) is None`) is handled by the same branch: required →
the recoverable error `"field is required"`; not required → the declared
default is stored.  A present non-None value is only type-checked. -/
def validatorField (objName : String) (r : VState) (fieldname : String)
    (fieldtypes : List String) (required : Bool) (default : PyVal) : VState :=
  let r := { r with declared := r.declared ++ [fieldname] }
  match lookupField r.fields fieldname with
  | Option.none | some PyVal.none =>
      if required then
        { r with errors := r.errors
            ++ [objName ++ "." ++ fieldname ++ ": field is required"] }
      else
        { r with fields := setField r.fields fieldname default }
  | some v =>
      if fieldtypes.any (isinstancePy v) then r
      else
        { r with errors := r.errors
            ++ ["field " ++ sq ++ objName ++ "(" ++ fieldname ++ ")" ++ sq
              ++ " expected types " ++ String.intercalate ", " fieldtypes
              ++ ", but got " ++ pyTypeOf v] }

/-! ### Filetype extension registration (api.py `filetype._prepare`) -/

/-- The extension-registration loop of `filetype._prepare` (api.py lines
755-763).  The table maps extension → qualified name of the registered
filetype.  A clash calls `self.fatal`, i.e. terminates the process: the
message is prefixed by the registering target's qualified name
(`tname`) and its body names the already-registered owner, so both
targets are named. -/
def filetypeRegisterExts (tname : String) (exts : List String)
    (table : List (String × String)) : Except String (List (String × String)) :=
  match exts with
  | [] => Except.ok table
  | e :: rest =>
      match table.lookup e with
      | some owner =>
          Except.error (tname ++ ": target " ++ sq ++ owner ++ sq
            ++ " already registers " ++ sq ++ "." ++ e ++ sq)
      | Option.none => filetypeRegisterExts tname rest (table ++ [(e, tname)])

/-! ### External resolution (api.py `external._resolve`, `finder.find`) -/

/-- An `external` target as `_resolve` sees it: its qualified name and its
`path` field (validator default `None`). -/
structure ExternalT where
  target_name : String
  path : Option String
  deriving DecidableEq

/-- A registered finder: the effect of its `__call__` hook on the external
target (the hook may set `path`). -/
structure FinderT where
  hook : ExternalT → ExternalT

/-- `finder.find` (api.py lines 787-788): `await self.__call__(self,
target)` runs the hook, but the body has no return statement, so the
coroutine's result is always the Python `None` regardless of what the
hook returned. -/
def finderFind (f : FinderT) (t : ExternalT) : ExternalT × PyVal :=
  (f.hook t, PyVal.none)

/-- The finder loop of `external._resolve` (api.py lines 859-861):
`for f in _.finders: if await f.find(self): return`.  The Boolean result
records whether the loop returned early.  `_.finders` is a Python set;
the list argument is its (unspecified) iteration order. -/
def resolveLoop : List FinderT → ExternalT → ExternalT × Bool
  | [], t => (t, false)
  | f :: rest, t =>
      let r := finderFind f t
      if pyTruthy r.2 then (r.1, true) else resolveLoop rest r.1

/-- `external._resolve` (api.py lines 855-864): no-op when `path` is
already truthy; otherwise run the finder loop; if the loop did not
return early and `path` is still falsy, raise
`TypeError("can't resolve target ...")`. -/
def externalResolve (finders : List FinderT) (t : ExternalT) :
    Except String ExternalT :=
  if pyTruthyStr t.path then Except.ok t
  else
    match resolveLoop finders t with
    | (t1, true) => Except.ok t1
    | (t1, false) =>
        if pyTruthyStr t1.path then Except.ok t1
        else
          Except.error ("TypeError: can" ++ sq ++ "t resolve target " ++ sq
            ++ t1.target_name ++ sq)

/-! ### Target lifecycle machines (apimixins.py `expandable`)

`prepare` and `expand` run under asyncio's cooperative scheduler: code
between `await` points is atomic.  In `prepare` (apimixins.py lines
45-66) the leader path sets `self._expand_lock = asyncio.Lock()`,
`self._prepared = True` and acquires the fresh (free) lock without ever
suspending, so it is one atomic step; the hook `self._prepare()` may
suspend; the release is a further step.  A caller that finds
`_prepared` already true awaits the lock and releases it immediately.
Two callers of the same stage on the same node are modelled as two
tasks with program counters interleaved by an arbitrary schedule
(`List Bool`: which task steps next); a step of a blocked or finished
task is a no-op. -/

/-- Program counter of one `prepare` caller: `start` (has not run the
initial check), `run` (leader, about to run `_prepare`), `rel` (leader,
about to release the lock), `wait` (follower, blocked on the lock),
`done` (returned). -/
inductive PPC where
  | start
  | run
  | rel
  | wait
  | done
  deriving DecidableEq

/-- Shared node state plus the two callers' program counters for
`prepare`.  `hookRuns` counts executions of the `_prepare` hook. -/
structure PCfg where
  pc0 : PPC
  pc1 : PPC
  prepared : Bool
  lockHeld : Bool
  hookRuns : Nat
  deriving DecidableEq

/-- One atomic step of the `prepare` coroutine (apimixins.py lines
45-66), given the task's pc and the shared state. -/
def pstep1 (pc : PPC) (c : PCfg) : PPC × PCfg :=
  match pc with
  | PPC.start =>
      if c.prepared then (PPC.wait, c)
      else (PPC.run, { c with prepared := true, lockHeld := true })
  | PPC.run => (PPC.rel, { c with hookRuns := c.hookRuns + 1 })
  | PPC.rel => (PPC.done, { c with lockHeld := false })
  | PPC.wait => if c.lockHeld then (PPC.wait, c) else (PPC.done, c)
  | PPC.done => (PPC.done, c)

/-- Scheduler step: `false` steps task 0, `true` steps task 1. -/
def pstep (c : PCfg) (which : Bool) : PCfg :=
  if which then
    let r := pstep1 c.pc1 c
    { r.2 with pc1 := r.1 }
  else
    let r := pstep1 c.pc0 c
    { r.2 with pc0 := r.1 }

/-- Run a schedule. -/
def prun (c : PCfg) : List Bool → PCfg
  | [] => c
  | b :: rest => prun (pstep c b) rest

/-- Two fresh concurrent callers of `prepare` on an unprepared node. -/
def pinit : PCfg :=
  { pc0 := PPC.start, pc1 := PPC.start, prepared := false, lockHeld := false,
    hookRuns := 0 }

/-- Inductive invariant of the two-caller `prepare` machine: the full
set of reachable configurations from `pinit`. -/
def pinv (c : PCfg) : Bool :=
  match c.pc0, c.pc1 with
  | PPC.start, PPC.start =>
      !c.prepared && !c.lockHeld && c.hookRuns == 0
  | PPC.run, PPC.start | PPC.start, PPC.run
  | PPC.run, PPC.wait | PPC.wait, PPC.run =>
      c.prepared && c.lockHeld && c.hookRuns == 0
  | PPC.rel, PPC.start | PPC.start, PPC.rel
  | PPC.rel, PPC.wait | PPC.wait, PPC.rel =>
      c.prepared && c.lockHeld && c.hookRuns == 1
  | PPC.done, PPC.start | PPC.start, PPC.done
  | PPC.done, PPC.wait | PPC.wait, PPC.done
  | PPC.done, PPC.done =>
      c.prepared && !c.lockHeld && c.hookRuns == 1
  | _, _ => false

/-- Program counter of one `expand` caller (apimixins.py lines 68-100):
the leader either runs both hooks (`runPrep` → `runRes`, node not yet
prepared) or only `_resolve` (`runRes`), then registers the node in the
pool and releases (`fin`). -/
inductive EPC where
  | start
  | runPrep
  | runRes
  | fin
  | wait
  | done
  deriving DecidableEq

/-- Shared node state plus the two callers' program counters for
`expand`.  `inPool` is membership in the progress pool's `all` set. -/
structure ECfg where
  pc0 : EPC
  pc1 : EPC
  prepared : Bool
  expanded : Bool
  lockHeld : Bool
  inPool : Bool
  prepRuns : Nat
  resRuns : Nat
  deriving DecidableEq

/-- One atomic step of the `expand` coroutine.  The initial block
(check `_expanded`, set it, create/acquire the lock, record
`was_prepared`) has no suspension point, so it is a single step; each
hook is a step; pool registration plus release is a step. -/
def estep1 (pc : EPC) (c : ECfg) : EPC × ECfg :=
  match pc with
  | EPC.start =>
      if c.expanded then (EPC.wait, c)
      else if c.prepared then
        (EPC.runRes, { c with expanded := true, lockHeld := true })
      else
        (EPC.runPrep,
          { c with expanded := true, prepared := true, lockHeld := true })
  | EPC.runPrep => (EPC.runRes, { c with prepRuns := c.prepRuns + 1 })
  | EPC.runRes => (EPC.fin, { c with resRuns := c.resRuns + 1 })
  | EPC.fin => (EPC.done, { c with inPool := true, lockHeld := false })
  | EPC.wait => if c.lockHeld then (EPC.wait, c) else (EPC.done, c)
  | EPC.done => (EPC.done, c)

/-- Scheduler step for `expand`. -/
def estep (c : ECfg) (which : Bool) : ECfg :=
  if which then
    let r := estep1 c.pc1 c
    { r.2 with pc1 := r.1 }
  else
    let r := estep1 c.pc0 c
    { r.2 with pc0 := r.1 }

/-- Run a schedule. -/
def erun (c : ECfg) : List Bool → ECfg
  | [] => c
  | b :: rest => erun (estep c b) rest

/-- Two fresh concurrent callers of `expand` on an unexpanded node whose
preparation state is `p` (either never prepared, or already fully
prepared with the lock free). -/
def einit (p : Bool) : ECfg :=
  { pc0 := EPC.start, pc1 := EPC.start, prepared := p, expanded := false,
    lockHeld := false, inPool := false, prepRuns := 0, resRuns := 0 }

/-- Inductive invariant of the two-caller `expand` machine, parametrized
by the initial preparation state `p`. -/
def einv (p : Bool) (c : ECfg) : Bool :=
  match c.pc0, c.pc1 with
  | EPC.start, EPC.start =>
      !c.expanded && (c.prepared == p) && !c.lockHeld && !c.inPool &&
        c.prepRuns == 0 && c.resRuns == 0
  | EPC.runPrep, EPC.start | EPC.start, EPC.runPrep
  | EPC.runPrep, EPC.wait | EPC.wait, EPC.runPrep =>
      !p && c.expanded && c.prepared && c.lockHeld && !c.inPool &&
        c.prepRuns == 0 && c.resRuns == 0
  | EPC.runRes, EPC.start | EPC.start, EPC.runRes
  | EPC.runRes, EPC.wait | EPC.wait, EPC.runRes =>
      c.expanded && c.prepared && c.lockHeld && !c.inPool &&
        c.prepRuns == (if p then 0 else 1) && c.resRuns == 0
  | EPC.fin, EPC.start | EPC.start, EPC.fin
  | EPC.fin, EPC.wait | EPC.wait, EPC.fin =>
      c.expanded && c.prepared && c.lockHeld && !c.inPool &&
        c.prepRuns == (if p then 0 else 1) && c.resRuns == 1
  | EPC.done, EPC.start | EPC.start, EPC.done
  | EPC.done, EPC.wait | EPC.wait, EPC.done
  | EPC.done, EPC.done =>
      c.expanded && c.prepared && !c.lockHeld && c.inPool &&
        c.prepRuns == (if p then 0 else 1) && c.resRuns == 1
  | _, _ => false

/-! ### Graph-file (ninja) orchestrator visit (builder_ninja.py) -/

/-- The three lines written for a generator target by `visit`
(builder_ninja.py lines 209-212): the command string is written
verbatim, with no placeholder substitution. -/
def ruleLines (g : Generator) : List String :=
  ["rule " ++ g.name, "  command = " ++ g.command, ""]

/-- A target as seen by the ninja `visit` (a generator, or a dependency;
`external` is a dependency subclass and follows the dependency path). -/
inductive NTarget where
  | gen (g : Generator)
  | dep (d : Dependency)

/-- `visit` of the ninja builder (builder_ninja.py lines 203-252), one
call deep; target identity in the visited set is modelled by name.  For
a generator: emit its rule block.  For a dependency: first `visit
(target.generator)` when set (emitting that rule block), then line 220
executes `for dep in target.get_dependencies():` — but
`dependency.get_dependencies` is an `async def` generator and `visit`
is a synchronous function, so the plain `for` raises
`TypeError: 'async_generator' object is not iterable` before any
dependency is processed (likewise `dep.get_output()` at line 223 and
`target.get_output()` at line 238 would return un-awaited coroutine
objects).  The result pairs the lines actually written before the crash
with the raised error, if any. -/
def visitNinja (visited : List String) (t : NTarget) :
    List String × Option String :=
  match t with
  | NTarget.gen g =>
      if g.name ∈ visited then ([], Option.none)
      else (ruleLines g, Option.none)
  | NTarget.dep d =>
      if d.name ∈ visited then ([], Option.none)
      else
        let genOut : List String :=
          match d.generator with
          | some g => if g.name ∈ visited then [] else ruleLines g
          | Option.none => []
        (genOut,
          some ("TypeError: " ++ sq ++ "async_generator" ++ sq
            ++ " object is not iterable"))

/-! ### Invariant lemmas for the lifecycle machines -/

theorem pinv_pstep (c : PCfg) (b : Bool) (h : pinv c = true) :
    pinv (pstep c b) = true := by
  rcases c with ⟨pc0, pc1, prepared, lockHeld, hookRuns⟩
  cases b <;> cases pc0 <;> cases pc1 <;> cases prepared <;> cases lockHeld <;>
    simp_all [pinv, pstep, pstep1]

theorem pinv_prun (sched : List Bool) (c : PCfg) (h : pinv c = true) :
    pinv (prun c sched) = true := by
  induction sched generalizing c with
  | nil => exact h
  | cons b rest ih => exact ih (pstep c b) (pinv_pstep c b h)

theorem einv_estep (p : Bool) (c : ECfg) (b : Bool) (h : einv p c = true) :
    einv p (estep c b) = true := by
  rcases c with ⟨pc0, pc1, prepared, expanded, lockHeld, inPool, prepRuns, resRuns⟩
  cases b <;> cases pc0 <;> cases pc1 <;> cases p <;> cases prepared <;>
    cases expanded <;> cases lockHeld <;> simp_all [einv, estep, estep1]

theorem einv_erun (p : Bool) (sched : List Bool) (c : ECfg)
    (h : einv p c = true) : einv p (erun c sched) = true := by
  induction sched generalizing c with
  | nil => exact h
  | cons b rest ih => exact ih (estep c b) (einv_estep p c b h)

/-! ### Claim C1 — registry merge conflicts -/

/-- The pre-existing registry node of the C1 counterexample: qualified name
`t`, field `kind = "a"`. -/
def c1Node : Node :=
  { cls := "dependency",
    fields := [("name", PyVal.str "t"), ("kind", PyVal.str "a")],
    expanded := false }

/-- Registry state holding `c1Node`, during the load phase, no errors yet. -/
def c1State : RegState :=
  { registry := [("t", c1Node)], errors := [], phase := "load" }

/-- The node after the C1 merge: `kind` has become `"b"`. -/
def c1Merged : Node :=
  { cls := "dependency",
    fields := [("name", PyVal.str "t"), ("kind", PyVal.str "b")],
    expanded := false }

/-- C1 counterexample: re-declaring `t` with conflicting `kind = "b"` and no
`override` records the "already exists (use override=True)" error, but the
merge is NOT rejected: `setattr` still runs and the stored value becomes
`"b"` (≠ the old `"a"`), contradicting "the existing value is not
replaced". -/
theorem update_conflict_still_overwrites :
    update c1State "dependency" "t"
        [("name", PyVal.str "t"), ("kind", PyVal.str "b")] =
      Except.ok
        ({ registry := [("t", c1Merged)],
           errors := ["t.kind: already exists (use override=True)"],
           phase := "load" }, c1Merged) ∧
    PyVal.str "b" ≠ PyVal.str "a" :=
  ⟨rfl, by decide⟩

/-- C1 (amended): on a merge into an existing, unexpanded node, for an
incoming field other than `name`/`override`/`default` that the node already
has: without `override` the "already exists (use override=True)" error is
recorded exactly when the values differ, but the field is set to the new
value in either case; with `override=True` no error is recorded and the
field is set to the new value. -/
theorem update_merge_conflict_records_error_and_sets (st : RegState)
    (robj : Node) (cls tname k : String) (v w : PyVal)
    (hreg : st.registry.lookup tname = some robj)
    (hexp : robj.expanded = false)
    (hname : k ≠ "name") (hov : k ≠ "override") (hdf : k ≠ "default")
    (hold : lookupField robj.fields k = some v) :
    update st cls tname [(k, w)] =
      Except.ok
        ({ st with
            registry := setReg st.registry tname
              { robj with cls := cls, fields := setField robj.fields k w },
            errors := st.errors ++
              (if v = w then [] else
                [tname ++ "." ++ k ++ ": already exists (use override=True)"]) },
         { robj with cls := cls, fields := setField robj.fields k w }) ∧
    update st cls tname [(k, w), ("override", PyVal.bool true)] =
      Except.ok
        ({ st with
            registry := setReg st.registry tname
              { robj with cls := cls, fields := setField robj.fields k w },
            errors := st.errors },
         { robj with cls := cls, fields := setField robj.fields k w }) := by
  constructor
  · simp only [update, lookupField, removeField, hreg, hexp,
      if_neg hov, if_neg hdf]
    simp only [List.foldl, mergeField, if_neg hname, hold]
    by_cases hvw : v = w <;> simp [hvw, Option.elim, pyTruthy]
  · simp only [update, lookupField, removeField, hreg, hexp,
      if_neg hov, if_neg hdf]
    simp [List.foldl, mergeField, if_neg hname, hold, Option.elim, pyTruthy]

/-- The existing node of the C1 witness scenario (`kind = "x"`). -/
def c1wOld : Node :=
  { cls := "target",
    fields := [("name", PyVal.str "w"), ("kind", PyVal.str "x")],
    expanded := false }

/-- The merged node of the C1 witness scenario (`kind = "y"`). -/
def c1wNew : Node :=
  { cls := "target",
    fields := [("name", PyVal.str "w"), ("kind", PyVal.str "y")],
    expanded := false }

/-- The starting registry state of the C1 witness scenario. -/
def c1wState : RegState :=
  { registry := [("w", c1wOld)], errors := [], phase := "load" }

/-- Witness for the C1 amended theorem at a concrete conflicting merge. -/
theorem update_merge_conflict_records_error_and_sets_witness :
    update c1wState "target" "w" [("kind", PyVal.str "y")] =
      Except.ok
        ({ registry := [("w", c1wNew)],
           errors := ["w.kind: already exists (use override=True)"],
           phase := "load" }, c1wNew) := by
  have h := (update_merge_conflict_records_error_and_sets
    c1wState c1wOld "target" "w" "kind" (PyVal.str "x") (PyVal.str "y")
    rfl rfl (by decide) (by decide) (by decide) rfl).1
  simpa [c1wState, c1wOld, c1wNew, setReg, setField, lookupField] using h

/-! ### Claim C2 — prepare/expand idempotence and one-shot hooks -/

/-- Helper: what the `prepare` invariant says once both callers are done. -/
theorem pdone_spec (c : PCfg) (h : pinv c = true)
    (h0 : c.pc0 = PPC.done) (h1 : c.pc1 = PPC.done) :
    c.hookRuns = 1 ∧ c.prepared = true := by
  rcases c with ⟨pc0, pc1, prepared, lockHeld, hookRuns⟩
  simp only at h0 h1
  subst h0; subst h1
  simp_all [pinv]

/-- Helper: what the `expand` invariant says once both callers are done. -/
theorem edone_spec (p : Bool) (c : ECfg) (h : einv p c = true)
    (h0 : c.pc0 = EPC.done) (h1 : c.pc1 = EPC.done) :
    c.resRuns = 1 ∧ c.prepRuns = (if p then 0 else 1) ∧
      c.expanded = true ∧ c.prepared = true := by
  rcases c with ⟨pc0, pc1, prepared, expanded, lockHeld, inPool, prepRuns, resRuns⟩
  simp only at h0 h1
  subst h0; subst h1
  cases p <;> simp_all [einv]

/-- C2: prepare/expand are idempotent and one-shot under the per-node lock.
For any interleaving (`sched`) of two callers of `prepare` on a fresh node
under which both callers return, the `_prepare` hook ran exactly once and
the node ends prepared; for any interleaving of two callers of `expand` on
an unexpanded node (whose prior preparation state is `p`), once both return
the `_resolve` hook ran exactly once, the `_prepare` hook ran exactly once
when the node was not already prepared and never otherwise, and the node
ends expanded and prepared.  Sequential double-calling is the special case
of a schedule that runs one caller to completion before the other starts. -/
theorem prepare_expand_idempotent_one_hook :
    (∀ sched : List Bool,
      (prun pinit sched).pc0 = PPC.done → (prun pinit sched).pc1 = PPC.done →
      (prun pinit sched).hookRuns = 1 ∧ (prun pinit sched).prepared = true) ∧
    (∀ (p : Bool) (sched : List Bool),
      (erun (einit p) sched).pc0 = EPC.done →
      (erun (einit p) sched).pc1 = EPC.done →
      (erun (einit p) sched).resRuns = 1 ∧
      (erun (einit p) sched).prepRuns = (if p then 0 else 1) ∧
      (erun (einit p) sched).expanded = true ∧
      (erun (einit p) sched).prepared = true) := by
  constructor
  · intro sched h0 h1
    exact pdone_spec _ (pinv_prun sched pinit (by decide)) h0 h1
  · intro p sched h0 h1
    exact edone_spec p _ (einv_erun p sched (einit p) (by cases p <;> decide)) h0 h1

/-- Witness for C2 at concrete completing schedules: caller 0 runs to
completion, then caller 1 observes the prepared/expanded state. -/
theorem prepare_expand_idempotent_one_hook_witness :
    (prun pinit [false, false, false, true, true]).hookRuns = 1 ∧
    (erun (einit false) [false, false, false, false, true, true]).resRuns = 1 ∧
    (erun (einit false) [false, false, false, false, true, true]).prepRuns = 1 ∧
    (erun (einit true) [false, false, false, true, true]).resRuns = 1 ∧
    (erun (einit true) [false, false, false, true, true]).prepRuns = 0 := by
  refine ⟨(prepare_expand_idempotent_one_hook.1
      [false, false, false, true, true] (by decide) (by decide)).1,
    (prepare_expand_idempotent_one_hook.2 false
      [false, false, false, false, true, true] (by decide) (by decide)).1,
    ?_,
    (prepare_expand_idempotent_one_hook.2 true
      [false, false, false, true, true] (by decide) (by decide)).1,
    ?_⟩
  · have h := (prepare_expand_idempotent_one_hook.2 false
      [false, false, false, false, true, true] (by decide) (by decide)).2.1
    simpa using h
  · have h := (prepare_expand_idempotent_one_hook.2 true
      [false, false, false, true, true] (by decide) (by decide)).2.1
    simpa using h

/-! ### Claim C3 — source splitting through the filetype's generator -/

/-- `os.path.splitext("a.c") = ("a", ".c")`. -/
theorem splitext_a_c : splitext "a.c" = ("a", ".c") := rfl

/-- `os.path.splitext("b.c") = ("b", ".c")`. -/
theorem splitext_b_c : splitext "b.c" = ("b", ".c") := rfl

/-- C3: for a non-local dependency with `nofiletype` unset whose sources
expand to exactly `a.c` and `b.c`, with a filetype registered for `.c`,
`get_dependencies` yields — after the explicit dependencies — exactly two
synthesized nodes, each of kind `object`, each `nofiletype`, each carrying
the `.c` filetype's generator, and each named by that generator's
output-naming template applied to its source with kind `object`. -/
theorem get_dependencies_two_c_sources (fts : List (String × Filetype))
    (d : Dependency) (ft : Filetype)
    (hp : d.provider ≠ "local") (hnf : d.nofiletype = false)
    (hs : d.sources = ["a.c", "b.c"])
    (hft : fts.lookup ".c" = some ft) :
    get_dependencies fts d =
      Except.ok (d.dependencies ++ [objectDep d ft "a.c", objectDep d ft "b.c"]) ∧
    (objectDep d ft "a.c").kind = "object" ∧
    (objectDep d ft "b.c").kind = "object" ∧
    (objectDep d ft "a.c").nofiletype = true ∧
    (objectDep d ft "b.c").nofiletype = true ∧
    (objectDep d ft "a.c").generator = some ft.generator ∧
    (objectDep d ft "b.c").generator = some ft.generator ∧
    (objectDep d ft "a.c").name = formatOutput ft.generator.output "a.c" "object" ∧
    (objectDep d ft "b.c").name = formatOutput ft.generator.output "b.c" "object" := by
  have ha : tryFind fts "a.c" = some ft := by
    show fts.lookup (splitext "a.c").2 = some ft
    rw [splitext_a_c]; exact hft
  have hb : tryFind fts "b.c" = some ft := by
    show fts.lookup (splitext "b.c").2 = some ft
    rw [splitext_b_c]; exact hft
  refine ⟨?_, rfl, rfl, rfl, rfl, rfl, rfl, rfl, rfl⟩
  simp [get_dependencies, hp, hs, synthDeps, ha, hb, hnf]

/-- The `.c` generator of the C3 witness scenario. -/
def c3gen : Generator :=
  { name := "cc", command := "gcc -c A_SOURCE -o AN_OBJECT",
    output := defaultOutputTemplate }

/-- The `.c` filetype of the C3 witness scenario. -/
def c3ft : Filetype :=
  { name := "filetype::c", extensions := [".c"], generator := c3gen }

/-- The dependency of the C3 witness scenario: non-local, two `.c` sources,
validator defaults for `nofiletype`/`generator`. -/
def c3dep : Dependency :=
  { name := "app", kind := "executable", provider := "internal",
    nofiletype := false, sources := ["a.c", "b.c"], dependencies := [],
    generator := Option.none, environment := "environment::default" }

/-- Witness for C3 at the concrete scenario: with the default
`{filename}{kindext}` output template the two synthesized object nodes are
named `a.o` and `b.o`. -/
theorem get_dependencies_two_c_sources_witness :
    get_dependencies [(".c", c3ft)] c3dep =
      Except.ok [objectDep c3dep c3ft "a.c", objectDep c3dep c3ft "b.c"] ∧
    (objectDep c3dep c3ft "a.c").name = "a.o" ∧
    (objectDep c3dep c3ft "b.c").name = "b.o" := by
  have h := get_dependencies_two_c_sources [(".c", c3ft)] c3dep c3ft
    (by decide) rfl rfl rfl
  exact ⟨by simpa [c3dep] using h.1, rfl, rfl⟩

/-! ### Claim C4 — duplicate extension registration -/

/-- C4 counterexample: registering `.c` under `filetype::c2` while
`filetype::c` already owns it does NOT accumulate a recoverable error and
continue — `filetype._prepare` calls `self.fatal`, i.e. the process
terminates immediately (`Except.error` is the fatal channel of this
embedding, `Except.ok` with an extended error log would be the recoverable
one).  The message does name both targets (and, because the stored
extension already contains its dot, prints a doubled dot). -/
theorem duplicate_extension_is_fatal :
    filetypeRegisterExts "filetype::c2" [".c"] [(".c", "filetype::c")] =
      Except.error ("filetype::c2: target " ++ sq ++ "filetype::c" ++ sq
        ++ " already registers " ++ sq ++ "." ++ ".c" ++ sq) := rfl

/-- C4 (amended): registering an extension already claimed by another
filetype is a FATAL error that terminates the process at once (not a
recoverable accumulating one), and its message names both the
already-registered owner and the newly registering target. -/
theorem duplicate_extension_fatal_names_both (tname e owner : String)
    (rest : List String) (table : List (String × String))
    (h : table.lookup e = some owner) :
    filetypeRegisterExts tname (e :: rest) table =
      Except.error (tname ++ ": target " ++ sq ++ owner ++ sq
        ++ " already registers " ++ sq ++ "." ++ e ++ sq) := by
  simp [filetypeRegisterExts, h]

/-- Witness for the C4 amended theorem at a concrete clash. -/
theorem duplicate_extension_fatal_names_both_witness :
    filetypeRegisterExts "filetype::d2" [".d"] [(".d", "filetype::d")] =
      Except.error ("filetype::d2: target " ++ sq ++ "filetype::d" ++ sq
        ++ " already registers " ++ sq ++ "." ++ ".d" ++ sq) :=
  duplicate_extension_fatal_names_both "filetype::d2" ".d" "filetype::d"
    [] [(".d", "filetype::d")] rfl

/-! ### Claim C5 — external resolution and the finder chain -/

/-- A finder whose hook locates the external at `/bin/first`. -/
def c5f1 : FinderT := ⟨fun t => { t with path := some "/bin/first" }⟩

/-- A second finder whose hook locates the external at `/bin/second`. -/
def c5f2 : FinderT := ⟨fun t => { t with path := some "/bin/second" }⟩

/-- An unresolved external. -/
def c5ext : ExternalT :=
  { target_name := "external.executable::cc", path := Option.none }

/-- C5 counterexample: the first finder sets the path, yet the iteration
does not stop — the second finder still runs and overwrites the path
(`finder.find` returns `None`, never a truthy value), so the final path is
`/bin/second`, not the first finder's `/bin/first` as the claim's
"first Finder wins and stops the iteration" would require. -/
theorem second_finder_still_runs :
    externalResolve [c5f1, c5f2] c5ext =
      Except.ok
        { target_name := "external.executable::cc", path := some "/bin/second" } ∧
    (some "/bin/second" : Option String) ≠ some "/bin/first" :=
  ⟨rfl, by decide⟩

/-- Every finder's hook applied in iteration order, as a fold. -/
def applyFinders (finders : List FinderT) (t : ExternalT) : ExternalT :=
  finders.foldl (fun a f => f.hook a) t

/-- Helper: the finder loop never returns early — `finder.find` always
returns `None` — so it applies every hook. -/
theorem resolveLoop_runs_all (finders : List FinderT) (t : ExternalT) :
    resolveLoop finders t = (applyFinders finders t, false) := by
  induction finders generalizing t with
  | nil => rfl
  | cons f rest ih => simp [resolveLoop, finderFind, pyTruthy, applyFinders,
      ih (f.hook t)]

/-- C5 (amended): if the external's path is already set (truthy), `_resolve`
is a no-op.  Otherwise EVERY registered finder's hook runs, in the set's
iteration order, with no early stop (`finder.find` has no return statement
and always yields `None`, so a successful finder does not win — a later
finder may overwrite its result); if after all finders the path is still
unset, resolution fails with `TypeError: can't resolve target ...`. -/
theorem external_resolve_spec (finders : List FinderT) (t : ExternalT) :
    (pyTruthyStr t.path = true → externalResolve finders t = Except.ok t) ∧
    (pyTruthyStr t.path = false →
      pyTruthyStr (applyFinders finders t).path = true →
      externalResolve finders t = Except.ok (applyFinders finders t)) ∧
    (pyTruthyStr t.path = false →
      pyTruthyStr (applyFinders finders t).path = false →
      externalResolve finders t =
        Except.error ("TypeError: can" ++ sq ++ "t resolve target " ++ sq
          ++ (applyFinders finders t).target_name ++ sq)) := by
  refine ⟨fun h => by simp [externalResolve, h], fun h hy => ?_, fun h hn => ?_⟩
  · simp [externalResolve, h, resolveLoop_runs_all, hy]
  · simp [externalResolve, h, resolveLoop_runs_all, hn]

/-- Witness for the C5 amended theorem: all three modes at concrete inputs
(already-set path; both finders run and the second overwrites; no finder
resolves an external when there are no finders). -/
theorem external_resolve_spec_witness :
    externalResolve [c5f1, c5f2]
        { target_name := "external.executable::pre", path := some "/usr/bin/pre" } =
      Except.ok
        { target_name := "external.executable::pre", path := some "/usr/bin/pre" } ∧
    externalResolve [c5f1, c5f2] c5ext =
      Except.ok
        { target_name := "external.executable::cc", path := some "/bin/second" } ∧
    externalResolve [] c5ext =
      Except.error ("TypeError: can" ++ sq ++ "t resolve target " ++ sq
        ++ "external.executable::cc" ++ sq) := by
  refine ⟨(external_resolve_spec [c5f1, c5f2] _).1 (by decide), ?_, ?_⟩
  · have h := (external_resolve_spec [c5f1, c5f2] c5ext).2.1 (by decide)
      (by decide)
    simpa [applyFinders, c5f1, c5f2, c5ext] using h
  · have h := (external_resolve_spec [] c5ext).2.2 (by decide) (by decide)
    simpa [applyFinders, c5ext] using h

/-! ### Claim C6 — creating new nodes after the prepare phase -/

/-- The node created in the C6 counterexample. -/
def c6Node : Node :=
  { cls := "target", fields := [("name", PyVal.str "newtgt")],
    expanded := false }

/-- C6 counterexample: `postload` is a phase from `prepare` onward in the
engine's progression, yet creating a brand-new node there succeeds —
`ensure_can_create` only fires when the phase is exactly `prepare` (indeed
the engine itself creates synthesized dependency nodes after `postload`),
contradicting "a hard error ... in every phase from prepare onward". -/
theorem create_allowed_in_postload :
    phaseIndex "prepare" ≤ phaseIndex "postload" ∧
    update { registry := [], errors := [], phase := "postload" } "target"
        "newtgt" [("name", PyVal.str "newtgt")] =
      Except.ok
        ({ registry := [("newtgt", c6Node)], errors := [],
           phase := "postload" }, c6Node) :=
  ⟨by decide, rfl⟩

/-- C6 (amended): declaring a qualified name not already present in the
registry is a hard (process-terminating) error exactly when the engine
phase is `prepare`; in every other phase — including `postload`, after the
prepare phase — creation succeeds. -/
theorem create_fatal_iff_prepare_phase (st : RegState) (cls tname : String)
    (fields : List (String × PyVal))
    (hreg : st.registry.lookup tname = Option.none) :
    (∃ m, update st cls tname fields = Except.error m) ↔
      st.phase = "prepare" := by
  simp only [update, hreg, ensure_can_create]
  by_cases h : st.phase = "prepare" <;> simp [h]

/-- Witness for the C6 amended theorem: creation during `prepare` is fatal. -/
theorem create_fatal_iff_prepare_phase_witness :
    ∃ m, update { registry := [], errors := [], phase := "prepare" } "target"
        "x" [("name", PyVal.str "x")] = Except.error m :=
  (create_fatal_iff_prepare_phase
    { registry := [], errors := [], phase := "prepare" } "target" "x"
    [("name", PyVal.str "x")] rfl).mpr rfl

/-! ### Claim C7 — kind-derived outputs under the declaring directory -/

/-- C7: for a non-local dependency (with no empty-string source path),
whenever there are at least two sources or the kind is
executable/static_library/shared_library, `get_output` returns the node
name extended with the kind-derived extension, joined under the declaring
directory; and the kind→extension table is `"" / .a / .so / .o / .out`. -/
theorem get_output_multi_or_terminal (fts : List (String × Filetype))
    (ctx : String) (d : Dependency)
    (hp : d.provider ≠ "local")
    (hne : "" ∉ d.sources)
    (hmt : 2 ≤ d.sources.length ∨ d.kind = "executable" ∨
           d.kind = "static_library" ∨ d.kind = "shared_library") :
    get_output fts ctx d =
      Except.ok (some (pathJoin ctx (d.name ++ kind_to_ext d.kind))) ∧
    kind_to_ext "executable" = "" ∧
    kind_to_ext "static_library" = ".a" ∧
    kind_to_ext "shared_library" = ".so" ∧
    kind_to_ext "object" = ".o" ∧
    (∀ k, k ≠ "executable" → k ≠ "static_library" → k ≠ "shared_library" →
      k ≠ "object" → kind_to_ext k = ".out") := by
  refine ⟨?_, rfl, rfl, rfl, rfl, fun k h1 h2 h3 h4 => by
    simp [kind_to_ext, h1, h2, h3, h4]⟩
  match hsrc : d.sources with
  | [] =>
      simp [get_output, hsrc, hp]
  | s :: rest =>
      have hcond : (s == "" || pyTruthyStr rest.head? ||
          d.kind == "executable" || d.kind == "static_library" ||
          d.kind == "shared_library") = true := by
        rcases hmt with hlen | hk | hk | hk
        · rw [hsrc] at hlen
          match rest with
          | [] => simp at hlen
          | s2 :: rest2 =>
              have hs2 : s2 ≠ "" := by
                intro h
                exact hne (h ▸ (hsrc ▸ List.mem_cons_of_mem s
                  (List.mem_cons_self s2 rest2)))
              simp [pyTruthyStr, hs2]
        · simp [hk]
        · simp [hk]
        · simp [hk]
      simp only [get_output, hsrc, List.head?_cons, List.drop_succ_cons,
        List.drop_zero, if_neg hp, hcond, if_true]

/-- The three-source archive dependency of the C7 witness scenario. -/
def c7dep : Dependency :=
  { name := "libz", kind := "static_library", provider := "internal",
    nofiletype := false, sources := ["a.c", "b.c", "c.c"], dependencies := [],
    generator := Option.none, environment := "environment::default" }

/-- Witness for C7 at a concrete static library declared in `/src`. -/
theorem get_output_multi_or_terminal_witness :
    get_output [] "/src" c7dep = Except.ok (some "/src/libz.a") := by
  have h := (get_output_multi_or_terminal [] "/src" c7dep (by decide)
    (by decide) (Or.inl (by decide))).1
  have h2 : pathJoin "/src" (c7dep.name ++ kind_to_ext c7dep.kind) =
      "/src/libz.a" := by decide
  rw [h2] at h
  exact h

/-! ### Claim C8 — local provider pass-through -/

/-- C8: a `local`-provider dependency with exactly one source yields no
dependencies at all, and its output is that sole source path unchanged (no
generator, no extension, no directory rewriting). -/
theorem local_dep_passthrough (fts : List (String × Filetype)) (ctx : String)
    (d : Dependency) (s : String)
    (hp : d.provider = "local") (hs : d.sources = [s]) :
    get_dependencies fts d = Except.ok [] ∧
    get_output fts ctx d = Except.ok (some s) := by
  constructor
  · simp [get_dependencies, hp]
  · simp [get_output, hs, hp]

/-- The synthesized pass-through node of the C8 witness scenario. -/
def c8dep : Dependency :=
  { name := "a.c", kind := "source", provider := "local",
    nofiletype := false, sources := ["a.c"], dependencies := [],
    generator := Option.none, environment := "environment::default" }

/-- Witness for C8 at a concrete local source node. -/
theorem local_dep_passthrough_witness :
    get_dependencies [] c8dep = Except.ok [] ∧
    get_output [] "/src" c8dep = Except.ok (some "a.c") :=
  local_dep_passthrough [] "/src" c8dep "a.c" rfl rfl

/-! ### Claim C9 — ninja visit: raw rule emission, broken build statements -/

/-- The generator of the C9 failing input. -/
def c9gen : Generator :=
  { name := "cc", command := "gcc -c A_SOURCE -o AN_OBJECT",
    output := defaultOutputTemplate }

/-- The C9 failing input: an internal dependency with one source and a
generator, exactly what the build-statement branch of `visit` is for. -/
def c9dep : Dependency :=
  { name := "app", kind := "executable", provider := "internal",
    nofiletype := false, sources := ["a.c"], dependencies := [],
    generator := some c9gen, environment := "environment::default" }

/-- C9: visiting a generator emits its rule block with the raw command
string verbatim (no placeholder substitution) — that part of the claim
matches the code.  But visiting a non-local dependency can never emit a
build statement: after emitting its generator's rule, line 220 of
builder_ninja.py iterates the async generator `get_dependencies()` with a
synchronous `for` and raises `TypeError`, so the code crashes where the
claim (and spec) say a `build <output>: <rule> <inputs>` statement is
written. -/
theorem ninja_visit_raises_typeerror :
    visitNinja [] (NTarget.gen c9gen) =
      (["rule cc", "  command = gcc -c A_SOURCE -o AN_OBJECT", ""],
       Option.none) ∧
    visitNinja [] (NTarget.dep c9dep) =
      (["rule cc", "  command = gcc -c A_SOURCE -o AN_OBJECT", ""],
       some ("TypeError: " ++ sq ++ "async_generator" ++ sq
         ++ " object is not iterable")) :=
  ⟨rfl, rfl⟩

/-! ### Claim C10 — validator: explicit None behaves like an absent field -/

/-- C10: for a field declared via `TargetValidator.field`, a value that is
explicitly `None` on the node is treated exactly like an absent field: if
required, the "field is required" error is recorded even though the
attribute is present; if not required, the declared default replaces it. -/
theorem validator_none_like_absent (objName : String) (r : VState)
    (fieldname : String) (fieldtypes : List String) (default : PyVal)
    (h : lookupField r.fields fieldname = Option.none ∨
         lookupField r.fields fieldname = some PyVal.none) :
    validatorField objName r fieldname fieldtypes true default =
      { r with declared := r.declared ++ [fieldname],
               errors := r.errors
                 ++ [objName ++ "." ++ fieldname ++ ": field is required"] } ∧
    validatorField objName r fieldname fieldtypes false default =
      { r with declared := r.declared ++ [fieldname],
               fields := setField r.fields fieldname default } := by
  rcases h with h | h <;> constructor <;> simp [validatorField, h]

/-- The validator state of the C10 witness scenario: the node carries an
explicit `None` in its `generator` field. -/
def c10r : VState :=
  { fields := [("generator", PyVal.none)], errors := [], declared := [] }

/-- Witness for C10 on a node carrying an explicit `None` in `generator`:
required reports "field is required", optional installs the default. -/
theorem validator_none_like_absent_witness :
    validatorField "obj" c10r "generator" ["str"] true PyVal.none =
      { fields := [("generator", PyVal.none)],
        errors := ["obj.generator: field is required"],
        declared := ["generator"] } ∧
    validatorField "obj" c10r "generator" ["str"] false (PyVal.str "dflt") =
      { fields := [("generator", PyVal.str "dflt")], errors := [],
        declared := ["generator"] } := by
  have h1 := (validator_none_like_absent "obj" c10r "generator" ["str"]
    PyVal.none (Or.inr rfl)).1
  have h2 := (validator_none_like_absent "obj" c10r "generator" ["str"]
    (PyVal.str "dflt") (Or.inr rfl)).2
  exact ⟨by simpa [c10r] using h1, by simpa [c10r, setField] using h2⟩

end Simba
